import Mathlib

/-!
Verification of the task-manager service (hive-demo): a shallow embedding of
the TaskManager business logic (`pkg/tasks`), the in-memory Storage map
(`pkg/storage`), the Metrics counters (`pkg/metrics`), the simulated Database
(`pkg/database`) and the POST /tasks HTTP handler (`pkg/api`), together with
theorems about their contracts.

Wall-clock time: the Go code reads `time.Now()` several times per operation
(three times in `Create`: once for the id, once for `CreatedAt`, once for
`UpdatedAt`; once in `Update`). Each reading is passed to the embedded
operation as an explicit `Nat` argument (a UnixNano value); monotonicity of
the clock becomes an explicit hypothesis where a theorem needs it.
-/

namespace Honeycomb

/-- `Task` record of `pkg/tasks`. Timestamps are UnixNano readings as `Nat`. -/
structure Task where
  id : String
  title : String
  description : String
  status : String
  createdAt : Nat
  updatedAt : Nat
deriving DecidableEq, Repr

/-- A value stored in Storage. The Go map holds `interface\x7b\x7d`; the
TaskManager narrows values to `*Task` at read time, so the model keeps a
non-Task alternative (`raw`) for values that fail that narrowing. -/
inductive Value where
  | task : Task → Value
  | raw : String → Value
deriving DecidableEq, Repr

/-- `memoryStorage.Get`: map lookup, `none` models `ok = false`. -/
def mapGet {α : Type} : List (String × α) → String → Option α
  | [], _ => none
  | (k, v) :: rest, key => if k = key then some v else mapGet rest key

/-- `memoryStorage.Set`: unconditional insert-or-replace (`s.data[key] = value`). -/
def mapSet {α : Type} : List (String × α) → String → α → List (String × α)
  | [], key, value => [(key, value)]
  | (k, v) :: rest, key, value =>
      if k = key then (key, value) :: rest else (k, v) :: mapSet rest key value

/-- `memoryStorage.Delete`: `delete(s.data, key)`, a no-op when absent. -/
def mapDelete {α : Type} : List (String × α) → String → List (String × α)
  | [], _ => []
  | (k, v) :: rest, key =>
      if k = key then mapDelete rest key else (k, v) :: mapDelete rest key

/-- The two atomic counters of `pkg/metrics`. -/
structure Metrics where
  requests : Nat
  errors : Nat
deriving DecidableEq, Repr

/-- `metrics.IncrementErrors`. -/
def incrementErrors (m : Metrics) : Metrics :=
  { m with errors := m.errors + 1 }

/-- `metrics.IncrementRequests`. -/
def incrementRequests (m : Metrics) : Metrics :=
  { m with requests := m.requests + 1 }

/-- The mutable state a `taskManager` reaches through its dependencies:
the Storage map and the Metrics counters. -/
structure TMState where
  storage : List (String × Value)
  metrics : Metrics
deriving DecidableEq, Repr

/-- `fmt.Sprintf("task-%d", t)` applied to a UnixNano reading. -/
def taskId (t : Nat) : String := "task-" ++ toString t

/-- `taskManager.Create`. `t1`, `t2`, `t3` are the three successive
`time.Now()` readings the Go code takes: id, `CreatedAt`, `UpdatedAt`. -/
def Create (st : TMState) (t1 t2 t3 : Nat) (title description : String) :
    Except String Task × TMState :=
  if title = "" then
    (Except.error "title is required",
      { st with metrics := incrementErrors st.metrics })
  else
    let task : Task :=
      { id := taskId t1, title := title, description := description,
        status := "pending", createdAt := t2, updatedAt := t3 }
    (Except.ok task, { st with storage := mapSet st.storage task.id (Value.task task) })

/-- `taskManager.Get`. -/
def Get (st : TMState) (id : String) : Except String Task × TMState :=
  match mapGet st.storage id with
  | none =>
      (Except.error "task not found",
        { st with metrics := incrementErrors st.metrics })
  | some (Value.task t) => (Except.ok t, st)
  | some (Value.raw _) =>
      (Except.error "invalid task data",
        { st with metrics := incrementErrors st.metrics })

/-- `taskManager.Update`. `now` is the single `time.Now()` reading. -/
def Update (st : TMState) (now : Nat) (id title description status : String) :
    Except String Task × TMState :=
  match Get st id with
  | (Except.error e, st1) => (Except.error e, st1)
  | (Except.ok task0, st1) =>
      let task1 := if title = "" then task0 else { task0 with title := title }
      let task2 :=
        if description = "" then task1 else { task1 with description := description }
      let task3 := if status = "" then task2 else { task2 with status := status }
      let task4 := { task3 with updatedAt := now }
      (Except.ok task4, { st1 with storage := mapSet st1.storage id (Value.task task4) })

/-- `taskManager.Delete`. -/
def Delete (st : TMState) (id : String) : Except String Unit × TMState :=
  match Get st id with
  | (Except.error e, st1) => (Except.error e, st1)
  | (Except.ok _, st1) =>
      (Except.ok (), { st1 with storage := mapDelete st1.storage id })

/-- `taskManager.List`: every stored value that narrows to a `*Task`. -/
def listTasks (st : TMState) : List Task :=
  (st.storage.map Prod.snd).filterMap fun v =>
    match v with
    | Value.task t => some t
    | Value.raw _ => none

/-- `statusCount[task.Status]++` on a `map[string]int`: a missing key reads
as zero, so the first bump installs the count 1. -/
def bumpStatus : List (String × Nat) → String → List (String × Nat)
  | [], s => [(s, 1)]
  | (k, n) :: rest, s =>
      if k = s then (k, n + 1) :: rest else (k, n) :: bumpStatus rest s

/-- The by-status histogram loop of `taskManager.GetStats`. -/
def statusCount (ts : List Task) : List (String × Nat) :=
  ts.foldl (fun acc t => bumpStatus acc t.status) []

/-- The result shape of `taskManager.GetStats`. -/
structure Stats where
  totalTasks : Nat
  totalRequests : Nat
  totalErrors : Nat
  byStatus : List (String × Nat)
deriving DecidableEq, Repr

/-- `taskManager.GetStats`. -/
def GetStats (st : TMState) : Stats :=
  let ts := listTasks st
  { totalTasks := ts.length,
    totalRequests := st.metrics.requests,
    totalErrors := st.metrics.errors,
    byStatus := statusCount ts }

/-- Sum of the counts of a by-status histogram. -/
def sumCounts (l : List (String × Nat)) : Nat := (l.map Prod.snd).sum

/-- The only error value `db.Ping` can return: `context.DeadlineExceeded`. -/
inductive DbError where
  | deadlineExceeded
deriving DecidableEq, Repr

/-- The mutable state of `pkg/database`: the `connected` flag. -/
structure DbState where
  connected : Bool
deriving DecidableEq, Repr

/-- `db.IsConnected`. -/
def IsConnected (d : DbState) : Bool := d.connected

/-- `db.Ping`: `some e` models a non-nil Go error. -/
def Ping (d : DbState) : Option DbError :=
  if d.connected = false then some DbError.deadlineExceeded else none

/-- The error kinds of the design's error taxonomy (spec section 7). -/
inductive ErrKind where
  | unavailable
  | other
deriving DecidableEq, Repr

/-- Modelled from the spec: section 7 classifies errors by kind, not type
name, and defines Unavailable as "Database ping failed"; the taxonomy is not
code in the repository, so the classification of the one error `Ping`
returns follows the spec's words. -/
def dbErrKind : DbError → ErrKind
  | DbError.deadlineExceeded => ErrKind.unavailable

/-- An HTTP response: status code and JSON body. -/
structure HttpResponse where
  status : Nat
  body : String
deriving DecidableEq, Repr

/-- `jsonError`: the `\x7b"error": message\x7d` body. -/
def jsonError (msg : String) : String :=
  "\x7b\"error\":\"" ++ msg ++ "\"\x7d"

/-- JSON encoding of a Task for a success response (timestamps rendered
from their UnixNano readings). -/
def encodeTask (t : Task) : String :=
  "\x7b\"id\":\"" ++ t.id ++ "\",\"title\":\"" ++ t.title ++
    "\",\"description\":\"" ++ t.description ++ "\",\"status\":\"" ++ t.status ++
    "\",\"created_at\":" ++ toString t.createdAt ++ ",\"updated_at\":" ++
    toString t.updatedAt ++ "\x7d"

/-- The decoded body of a POST /tasks request. -/
structure CreateRequest where
  title : String
  description : String
deriving DecidableEq, Repr

/-- The POST branch of `server.handleTasks`. `body = none` models a body
`json.Decoder.Decode` rejects; `some req` a body that decodes. -/
def handleTasksPost (st : TMState) (t1 t2 t3 : Nat) (body : Option CreateRequest) :
    HttpResponse × TMState :=
  match body with
  | none =>
      (⟨400, jsonError "Invalid request body"⟩,
        { st with metrics := incrementErrors st.metrics })
  | some req =>
      match Create st t1 t2 t3 req.title req.description with
      | (Except.error e, st1) =>
          (⟨400, jsonError e⟩, { st1 with metrics := incrementErrors st1.metrics })
      | (Except.ok task, st1) => (⟨201, encodeTask task⟩, st1)

/-- A POST /tasks request as served: `loggingMiddleware` increments the
request counter, then `handleTasks` runs. -/
def serveTasksPost (st : TMState) (t1 t2 t3 : Nat) (body : Option CreateRequest) :
    HttpResponse × TMState :=
  handleTasksPost { st with metrics := incrementRequests st.metrics } t1 t2 t3 body

/-! ### Lemmas about the map model -/

theorem mapGet_mapSet_self {α : Type} (m : List (String × α)) (k : String) (v : α) :
    mapGet (mapSet m k v) k = some v := by
  induction m with
  | nil => simp [mapSet, mapGet]
  | cons p rest ih =>
      obtain ⟨k1, v1⟩ := p
      by_cases h : k1 = k <;> simp [mapSet, mapGet, h, ih]

theorem mapGet_mapDelete_self {α : Type} (m : List (String × α)) (k : String) :
    mapGet (mapDelete m k) k = none := by
  induction m with
  | nil => simp [mapDelete, mapGet]
  | cons p rest ih =>
      obtain ⟨k1, v1⟩ := p
      by_cases h : k1 = k <;> simp [mapDelete, mapGet, h, ih]

theorem mapGet_mapDelete_other {α : Type} (m : List (String × α)) (k k2 : String)
    (h : k2 ≠ k) : mapGet (mapDelete m k) k2 = mapGet m k2 := by
  induction m with
  | nil => simp [mapDelete]
  | cons p rest ih =>
      obtain ⟨k1, v1⟩ := p
      by_cases h1 : k1 = k
      · have h3 : k1 ≠ k2 := by
          subst h1
          exact fun hc => h hc.symm
        simp [mapDelete, mapGet, h1, h3, Ne.symm h, ih]
      · by_cases h2 : k1 = k2 <;> simp [mapDelete, mapGet, h1, h2, h, ih]

theorem mapGet_none_iff {α : Type} (m : List (String × α)) (k : String) :
    mapGet m k = none ↔ ∀ v, (k, v) ∉ m := by
  induction m with
  | nil => simp [mapGet]
  | cons p rest ih =>
      obtain ⟨k1, v1⟩ := p
      by_cases h : k1 = k
      · subst h
        constructor
        · intro hc
          simp [mapGet] at hc
        · intro ha
          exact absurd (List.mem_cons_self _ _) (ha v1)
      · rw [show mapGet ((k1, v1) :: rest) k = mapGet rest k by simp [mapGet, h]]
        rw [ih]
        constructor
        · intro ha v hc
          rcases List.mem_cons.mp hc with hc | hc
          · exact h (congrArg Prod.fst hc).symm
          · exact ha v hc
        · intro ha v hc
          exact ha v (List.mem_cons_of_mem _ hc)

theorem mapDelete_absent {α : Type} (m : List (String × α)) (k : String)
    (h : mapGet m k = none) : mapDelete m k = m := by
  induction m with
  | nil => simp [mapDelete]
  | cons p rest ih =>
      obtain ⟨k1, v1⟩ := p
      by_cases h1 : k1 = k
      · subst h1
        simp [mapGet] at h
      · simp [mapGet, h1] at h
        simp [mapDelete, h1, ih h]

/-! ### Lemmas about the by-status histogram -/

theorem sumCounts_bumpStatus (acc : List (String × Nat)) (s : String) :
    sumCounts (bumpStatus acc s) = sumCounts acc + 1 := by
  induction acc with
  | nil => simp [bumpStatus, sumCounts]
  | cons p rest ih =>
      obtain ⟨k, n⟩ := p
      by_cases h : k = s
      · simp [bumpStatus, sumCounts, h]
        omega
      · simp [bumpStatus, sumCounts, h] at ih ⊢
        omega

theorem sumCounts_foldl_bump (ts : List Task) (acc : List (String × Nat)) :
    sumCounts (ts.foldl (fun a t => bumpStatus a t.status) acc) =
      sumCounts acc + ts.length := by
  induction ts generalizing acc with
  | nil => simp
  | cons t rest ih =>
      simp only [List.foldl_cons, ih, sumCounts_bumpStatus, List.length_cons]
      omega

/-! ### Claim theorems -/

/-- C7: the Database's `Ping` fails with the (spec-classified Unavailable)
error exactly when `IsConnected` is false, and succeeds whenever
`IsConnected` is true. -/
theorem c7_ping_unavailable_iff_disconnected (d : DbState) :
    (IsConnected d = true → Ping d = none) ∧
    (IsConnected d = false →
      ∃ e, Ping d = some e ∧ dbErrKind e = ErrKind.unavailable) := by
  obtain ⟨c⟩ := d
  cases c
  · constructor
    · intro h
      exact absurd h (by decide)
    · intro _
      exact ⟨DbError.deadlineExceeded, rfl, rfl⟩
  · constructor
    · intro _
      rfl
    · intro h
      exact absurd h (by decide)

/-- Witness for C7 at the two concrete connection states. -/
theorem c7_ping_witness :
    Ping ⟨true⟩ = none ∧
      ∃ e, Ping ⟨false⟩ = some e ∧ dbErrKind e = ErrKind.unavailable :=
  ⟨(c7_ping_unavailable_iff_disconnected ⟨true⟩).1 rfl,
    (c7_ping_unavailable_iff_disconnected ⟨false⟩).2 rfl⟩

/-- C8: on the Storage map, `set` then `get` at the same key yields the set
value; `get` is `none` exactly when the key is absent; `delete` removes the
key, leaves every other key's binding unchanged, and is a no-op when the key
is absent. -/
theorem c8_storage_map_ops {α : Type} (m : List (String × α)) (k k2 : String) (v : α) :
    mapGet (mapSet m k v) k = some v ∧
    (mapGet m k = none ↔ ∀ v2, (k, v2) ∉ m) ∧
    mapGet (mapDelete m k) k = none ∧
    (k2 ≠ k → mapGet (mapDelete m k) k2 = mapGet m k2) ∧
    (mapGet m k = none → mapDelete m k = m) :=
  ⟨mapGet_mapSet_self m k v, mapGet_none_iff m k, mapGet_mapDelete_self m k,
    fun h => mapGet_mapDelete_other m k k2 h, fun h => mapDelete_absent m k h⟩

/-- Witness for C8 on a concrete one-entry map. -/
theorem c8_storage_map_witness :
    mapGet (mapSet [("a", (1 : Nat))] "a" 2) "a" = some 2 ∧
    mapGet (mapDelete [("a", (1 : Nat))] "a") "b" = mapGet [("a", (1 : Nat))] "b" ∧
    mapDelete ([] : List (String × Nat)) "a" = [] :=
  ⟨(c8_storage_map_ops [("a", (1 : Nat))] "a" "b" 2).1,
    (c8_storage_map_ops [("a", (1 : Nat))] "a" "b" 2).2.2.2.1 (by decide),
    (c8_storage_map_ops ([] : List (String × Nat)) "a" "b" 2).2.2.2.2 rfl⟩

/-- C9: in every result of `GetStats`, the by-status counts sum to
`totalTasks`. -/
theorem c9_stats_by_status_sums_to_total (st : TMState) :
    sumCounts (GetStats st).byStatus = (GetStats st).totalTasks := by
  simp only [GetStats, statusCount]
  simpa [sumCounts] using sumCounts_foldl_bump (listTasks st) []

/-- C10: a `Create` that fails on an empty title leaves the Storage map
completely unchanged. -/
theorem c10_create_empty_title_storage_unchanged
    (st : TMState) (t1 t2 t3 : Nat) (d : String) :
    (Create st t1 t2 t3 "" d).2.storage = st.storage := by
  simp [Create]

/-- C1 counterexample: a served POST /tasks whose body decodes to an empty
title returns 400 with the claimed body, but the error counter rises from 0
to 2, not to 1 (both `Create` and the handler increment it). -/
theorem c1_counterexample_double_increment :
    (serveTasksPost ⟨[], ⟨0, 0⟩⟩ 1 2 3 (some ⟨"", "d"⟩)).1 =
      ⟨400, jsonError "title is required"⟩ ∧
    (serveTasksPost ⟨[], ⟨0, 0⟩⟩ 1 2 3 (some ⟨"", "d"⟩)).2.metrics.errors = 2 ∧
    (serveTasksPost ⟨[], ⟨0, 0⟩⟩ 1 2 3 (some ⟨"", "d"⟩)).2.metrics.errors ≠ 0 + 1 := by
  refine ⟨rfl, rfl, by decide⟩

/-- C1 (amended): a served POST /tasks whose body decodes with an empty title
returns 400 with body `jsonError "title is required"` and the error counter
increments by exactly two relative to its value before the request. -/
theorem c1_empty_title_post (st : TMState) (t1 t2 t3 : Nat) (d : String) :
    (serveTasksPost st t1 t2 t3 (some ⟨"", d⟩)).1 =
      ⟨400, jsonError "title is required"⟩ ∧
    (serveTasksPost st t1 t2 t3 (some ⟨"", d⟩)).2.metrics.errors =
      st.metrics.errors + 2 := by
  constructor <;>
    simp [serveTasksPost, handleTasksPost, Create, incrementRequests, incrementErrors]

/-- C2 counterexample: `Get` on an absent id returns the not-found error but
also increments the error counter (0 becomes 1), contrary to the claim that
the absent case does not increment it. -/
theorem c2_counterexample_absent_increments :
    (Get ⟨[], ⟨0, 0⟩⟩ "x").1 = Except.error "task not found" ∧
    (Get ⟨[], ⟨0, 0⟩⟩ "x").2.metrics.errors = 1 ∧
    (Get ⟨[], ⟨0, 0⟩⟩ "x").2.metrics.errors ≠ 0 := by
  refine ⟨rfl, rfl, by decide⟩

/-- C2 (amended): `Get` returns the not-found error and increments the error
counter when the id is absent, returns the invalid-data error and increments
the error counter when the stored value is not a Task, and returns the stored
Task with the state untouched otherwise. -/
theorem c2_get_behaviour (st : TMState) (id : String) :
    (mapGet st.storage id = none →
      Get st id = (Except.error "task not found",
        { st with metrics := incrementErrors st.metrics })) ∧
    (∀ s, mapGet st.storage id = some (Value.raw s) →
      Get st id = (Except.error "invalid task data",
        { st with metrics := incrementErrors st.metrics })) ∧
    (∀ t, mapGet st.storage id = some (Value.task t) →
      Get st id = (Except.ok t, st)) := by
  refine ⟨fun h => ?_, fun s h => ?_, fun t h => ?_⟩ <;> simp [Get, h]

/-- Witness for C2 on a concrete state with an absent id. -/
theorem c2_get_witness :
    Get ⟨[], ⟨0, 0⟩⟩ "x" = (Except.error "task not found", ⟨[], ⟨0, 1⟩⟩) :=
  (c2_get_behaviour ⟨[], ⟨0, 0⟩⟩ "x").1 rfl

/-- C3 counterexample: with the three clock readings 1, 2, 3, `Create`
succeeds with `createdAt = 2` and `updatedAt = 3`, so the two timestamps of
the returned Task differ, contrary to the claim that they are equal. -/
theorem c3_counterexample_timestamps_differ :
    (Create ⟨[], ⟨0, 0⟩⟩ 1 2 3 "Test" "d").1 =
      Except.ok { id := taskId 1, title := "Test", description := "d",
                  status := "pending", createdAt := 2, updatedAt := 3 } ∧
    (2 : Nat) ≠ 3 := by
  refine ⟨rfl, by decide⟩

/-- C3 (amended): `Create` fails with the required-title error and increments
the error counter when the title is empty; on a non-empty title it returns
the Task whose id is the timestamp-derived string of the first clock reading,
whose title, description are the arguments, whose status is "pending", whose
`createdAt` and `updatedAt` are the second and third clock readings, and
writes exactly that Task to Storage under its id; when the clock is monotone
across the two readings, `createdAt ≤ updatedAt`. -/
theorem c3_create_behaviour (st : TMState) (t1 t2 t3 : Nat) (title d : String) :
    (title = "" →
      Create st t1 t2 t3 title d =
        (Except.error "title is required",
          { st with metrics := incrementErrors st.metrics })) ∧
    (title ≠ "" →
      Create st t1 t2 t3 title d =
        (Except.ok { id := taskId t1, title := title, description := d,
                     status := "pending", createdAt := t2, updatedAt := t3 },
          { st with
              storage := mapSet st.storage (taskId t1)
                           (Value.task { id := taskId t1, title := title,
                                         description := d, status := "pending",
                                         createdAt := t2, updatedAt := t3 }) })) ∧
    (t2 ≤ t3 → ∀ task st1, Create st t1 t2 t3 title d = (Except.ok task, st1) →
      task.createdAt ≤ task.updatedAt) := by
  refine ⟨fun h => ?_, fun h => ?_, fun hle task st1 hc => ?_⟩
  · simp [Create, h]
  · simp [Create, h]
  · by_cases h : title = ""
    · simp [Create, h] at hc
    · simp [Create, h] at hc
      obtain ⟨h1, _⟩ := hc
      rw [← h1]
      exact hle

/-- Witness for C3 at concrete clock readings 1, 2, 3. -/
theorem c3_create_witness :
    Create ⟨[], ⟨0, 0⟩⟩ 1 2 3 "" "d" =
      (Except.error "title is required", ⟨[], ⟨0, 1⟩⟩) ∧
    Create ⟨[], ⟨0, 0⟩⟩ 1 2 3 "Test" "d" =
      (Except.ok { id := taskId 1, title := "Test", description := "d",
                   status := "pending", createdAt := 2, updatedAt := 3 },
        ⟨[(taskId 1,
            Value.task { id := taskId 1, title := "Test", description := "d",
                         status := "pending", createdAt := 2, updatedAt := 3 })],
          ⟨0, 0⟩⟩) ∧
    (2 : Nat) ≤ 3 :=
  ⟨(c3_create_behaviour ⟨[], ⟨0, 0⟩⟩ 1 2 3 "" "d").1 rfl,
    (c3_create_behaviour ⟨[], ⟨0, 0⟩⟩ 1 2 3 "Test" "d").2.1 (by decide),
    (c3_create_behaviour ⟨[], ⟨0, 0⟩⟩ 1 2 3 "Test" "d").2.2 (by decide) _ _
      ((c3_create_behaviour ⟨[], ⟨0, 0⟩⟩ 1 2 3 "Test" "d").2.1 (by decide))⟩

/-- C4: when `Create` succeeds on a non-empty title, an immediately
following `Get` at the returned Task's id returns a Task equal to it in
every field, leaving the state untouched. -/
theorem c4_create_then_get (st : TMState) (t1 t2 t3 : Nat) (title d : String)
    (h : title ≠ "") :
    ∀ task st1, Create st t1 t2 t3 title d = (Except.ok task, st1) →
      Get st1 task.id = (Except.ok task, st1) := by
  intro task st1 hc
  simp [Create, h] at hc
  obtain ⟨h1, h2⟩ := hc
  rw [← h1, ← h2]
  simp [Get, mapGet_mapSet_self]

/-- Witness for C4 at concrete clock readings 1, 2, 3. -/
theorem c4_create_then_get_witness :
    Get ⟨[(taskId 1,
            Value.task { id := taskId 1, title := "Test", description := "d",
                         status := "pending", createdAt := 2, updatedAt := 3 })],
          ⟨0, 0⟩⟩
        (taskId 1) =
      (Except.ok { id := taskId 1, title := "Test", description := "d",
                   status := "pending", createdAt := 2, updatedAt := 3 },
        ⟨[(taskId 1,
            Value.task { id := taskId 1, title := "Test", description := "d",
                         status := "pending", createdAt := 2, updatedAt := 3 })],
          ⟨0, 0⟩⟩) :=
  c4_create_then_get ⟨[], ⟨0, 0⟩⟩ 1 2 3 "Test" "d" (by decide)
    { id := taskId 1, title := "Test", description := "d",
      status := "pending", createdAt := 2, updatedAt := 3 }
    ⟨[(taskId 1,
        Value.task { id := taskId 1, title := "Test", description := "d",
                     status := "pending", createdAt := 2, updatedAt := 3 })],
      ⟨0, 0⟩⟩ rfl

/-- C5 counterexample: a stored task with `updatedAt = 5` updated while the
clock still reads 5 succeeds but returns `updatedAt = 5`, which is not
strictly greater than the previous value. -/
theorem c5_counterexample_clock_not_advanced :
    (Update ⟨[("task-1",
                Value.task { id := "task-1", title := "A", description := "B",
                             status := "pending", createdAt := 4, updatedAt := 5 })],
              ⟨0, 0⟩⟩
        5 "task-1" "" "" "").1 =
      Except.ok { id := "task-1", title := "A", description := "B",
                  status := "pending", createdAt := 4, updatedAt := 5 } ∧
    ¬ (5 : Nat) > 5 := by
  refine ⟨rfl, by decide⟩

/-- C5 (amended): on a stored task, `Update` keeps each field whose argument
is empty, sets each field whose argument is non-empty, keeps `createdAt`,
and sets `updatedAt` to the clock reading taken during the update, which is
strictly greater than the previous `updatedAt` exactly when the clock has
strictly advanced past it. -/
theorem c5_update_behaviour (st : TMState) (now : Nat)
    (id title d status : String) (task : Task)
    (h : mapGet st.storage id = some (Value.task task)) :
    (Update st now id title d status).1 =
      Except.ok { id := task.id,
                  title := if title = "" then task.title else title,
                  description := if d = "" then task.description else d,
                  status := if status = "" then task.status else status,
                  createdAt := task.createdAt,
                  updatedAt := now } ∧
    (task.updatedAt < now →
      ∀ r, (Update st now id title d status).1 = Except.ok r →
        task.updatedAt < r.updatedAt) := by
  have hmain : (Update st now id title d status).1 =
      Except.ok { id := task.id,
                  title := if title = "" then task.title else title,
                  description := if d = "" then task.description else d,
                  status := if status = "" then task.status else status,
                  createdAt := task.createdAt,
                  updatedAt := now } := by
    by_cases h1 : title = "" <;> by_cases h2 : d = "" <;> by_cases h3 : status = "" <;>
      simp [Update, Get, h, h1, h2, h3]
  refine ⟨hmain, fun hlt r hr => ?_⟩
  rw [hmain] at hr
  cases hr
  exact hlt

/-- Witness for C5 on a concrete stored task and an advanced clock. -/
theorem c5_update_witness :
    (Update ⟨[("task-1",
                Value.task { id := "task-1", title := "A", description := "B",
                             status := "pending", createdAt := 4, updatedAt := 5 })],
              ⟨0, 0⟩⟩
        9 "task-1" "" "x" "completed").1 =
      Except.ok { id := "task-1", title := "A", description := "x",
                  status := "completed", createdAt := 4, updatedAt := 9 } ∧
    (5 : Nat) < 9 :=
  ⟨(c5_update_behaviour
      ⟨[("task-1",
          Value.task { id := "task-1", title := "A", description := "B",
                       status := "pending", createdAt := 4, updatedAt := 5 })],
        ⟨0, 0⟩⟩ 9 "task-1" "" "x" "completed"
      { id := "task-1", title := "A", description := "B",
        status := "pending", createdAt := 4, updatedAt := 5 } rfl).1,
    by decide⟩

/-- C6: after `Delete` succeeds, a subsequent `Get` at the same id returns
the not-found error and a subsequent `Delete` returns the not-found error;
and `Delete` returns the not-found error whenever the id is absent. -/
theorem c6_delete_then_absent (st : TMState) (id : String) :
    ((Delete st id).1 = Except.ok () →
      (Get (Delete st id).2 id).1 = Except.error "task not found" ∧
      (Delete (Delete st id).2 id).1 = Except.error "task not found") ∧
    (mapGet st.storage id = none →
      (Delete st id).1 = Except.error "task not found") := by
  cases hm : mapGet st.storage id with
  | none =>
      constructor
      · intro h
        simp [Delete, Get, hm] at h
      · intro _
        simp [Delete, Get, hm]
  | some v =>
      cases v with
      | task t =>
          constructor
          · intro _
            constructor
            · simp [Delete, Get, hm, mapGet_mapDelete_self]
            · simp [Delete, Get, hm, mapGet_mapDelete_self]
          · intro h2
            exact Option.noConfusion h2
      | raw s =>
          constructor
          · intro h
            simp [Delete, Get, hm] at h
          · intro h2
            exact Option.noConfusion h2

/-- Witness for C6 on a concrete one-task store and on the empty store. -/
theorem c6_delete_witness :
    ((Get (Delete ⟨[("k",
                      Value.task { id := "k", title := "A", description := "B",
                                   status := "pending", createdAt := 1,
                                   updatedAt := 2 })],
                    ⟨0, 0⟩⟩ "k").2 "k").1 =
        Except.error "task not found" ∧
      (Delete (Delete ⟨[("k",
                          Value.task { id := "k", title := "A", description := "B",
                                       status := "pending", createdAt := 1,
                                       updatedAt := 2 })],
                        ⟨0, 0⟩⟩ "k").2 "k").1 =
        Except.error "task not found") ∧
    (Delete ⟨[], ⟨0, 0⟩⟩ "k").1 = Except.error "task not found" :=
  ⟨(c6_delete_then_absent
      ⟨[("k",
          Value.task { id := "k", title := "A", description := "B",
                       status := "pending", createdAt := 1, updatedAt := 2 })],
        ⟨0, 0⟩⟩ "k").1 rfl,
    (c6_delete_then_absent ⟨[], ⟨0, 0⟩⟩ "k").2 rfl⟩

end Honeycomb
